import Mathlib

/-!
Verification of the `rust-state-machine` runtime (subotic/rust-state-machine).

Shallow embedding of the Rust sources at the concrete types chosen in
`src/main.rs` (`mod types`): `AccountId = String`, `Balance = u128`,
`BlockNumber = u32`, `Nonce = u32`, `Content = &'static str` (modelled as
`String`).  Machine integers are modelled as `Nat`; `u128::checked_add` and
`u128::checked_sub` carry their bounds explicitly, and the unchecked `u32`
additions of the system pallet are modelled as wrapping additions
(`% 2 ^ 32`) together with explicit overflow predicates (an overflowing
unchecked addition panics a Rust debug build and wraps in release).

`BTreeMap` stores are modelled extensionally as functions into `Option`:
`get` is application, `insert` is a pointwise update, `remove` sets the key
to `none`, `contains_key` is `Option.isSome`.
-/

/-- Rust `u128::checked_sub` (num's `CheckedSub` at `Balance = u128`):
`none` exactly when the subtrahend exceeds the minuend. -/
def u128_checked_sub (a b : Nat) : Option Nat :=
  if b ≤ a then some (a - b) else none

/-- Rust `u128::checked_add` (num's `CheckedAdd` at `Balance = u128`):
`none` exactly when the sum exceeds `u128::MAX = 2 ^ 128 - 1`. -/
def u128_checked_add (a b : Nat) : Option Nat :=
  if a + b < 2 ^ 128 then some (a + b) else none

/-! ## Balances pallet (`src/balances.rs`) -/

/-- The Balances Module (`balances::Pallet`): a storage map from accounts to
their balances. -/
structure BalancesPallet where
  balances : String → Option Nat

/-- Create a new instance of the balances module (`Pallet::new`). -/
def BalancesPallet.new : BalancesPallet :=
  { balances := fun _ => none }

/-- Set the balance of an account `who` to some `amount`
(`Pallet::set_balance`): insert `amount` into the map under `who`. -/
def BalancesPallet.set_balance (s : BalancesPallet) (who : String) (amount : Nat) :
    BalancesPallet :=
  { balances := fun k => if k = who then some amount else s.balances k }

/-- Get the balance of an account `who` (`Pallet::balance`); an account with
no stored balance has balance zero. -/
def BalancesPallet.balance (s : BalancesPallet) (who : String) : Nat :=
  (s.balances who).getD 0

/-- Transfer `amount` from `caller` to `to` (`Pallet::transfer`).  The Rust
function mutates `&mut self` and returns a `DispatchResult`; here it returns
the result together with the post-state.  Each early `return Err` in the
source leaves `self` untouched, so the error branches return `s` unchanged. -/
def BalancesPallet.transfer (s : BalancesPallet) (caller «to» : String) (amount : Nat) :
    Except String Unit × BalancesPallet :=
  let caller_balance := s.balance caller
  let to_balance := s.balance «to»
  match u128_checked_sub caller_balance amount with
  | none => (Except.error "Not enough funds", s)
  | some new_caller_balance =>
    match u128_checked_add to_balance amount with
    | none => (Except.error "Overflow", s)
    | some new_to_balance =>
      let s1 := s.set_balance caller new_caller_balance
      let s2 := s1.set_balance «to» new_to_balance
      (Except.ok (), s2)

/-! ## Proof-of-existence pallet (`src/proof_of_existence.rs`) -/

/-- The Proof of Existence Module (`proof_of_existence::Pallet`): a storage
map from content to the owner of that content. -/
structure ProofOfExistencePallet where
  claims : String → Option String

/-- Create a new instance of the proof-of-existence module (`Pallet::new`). -/
def ProofOfExistencePallet.new : ProofOfExistencePallet :=
  { claims := fun _ => none }

/-- Get the owner (if any) of a claim (`Pallet::get_claim`). -/
def ProofOfExistencePallet.get_claim (s : ProofOfExistencePallet) (claim : String) :
    Option String :=
  s.claims claim

/-- Create a new claim on behalf of `caller` (`Pallet::create_claim`): error
if the content is already claimed, otherwise insert `claim ↦ caller`. -/
def ProofOfExistencePallet.create_claim (s : ProofOfExistencePallet)
    (caller claim : String) : Except String Unit × ProofOfExistencePallet :=
  if (s.claims claim).isSome then
    (Except.error "this content is already claimed", s)
  else
    (Except.ok (), { claims := fun k => if k = claim then some caller else s.claims k })

/-- Revoke an existing claim (`Pallet::revoke_claim`): error if the claim
does not exist or the caller is not the owner, otherwise remove it. -/
def ProofOfExistencePallet.revoke_claim (s : ProofOfExistencePallet)
    (caller claim : String) : Except String Unit × ProofOfExistencePallet :=
  match s.get_claim claim with
  | none => (Except.error "Claim not existing", s)
  | some current_owner =>
    if current_owner ≠ caller then
      (Except.error "Cannot revoke claim that is not owned by caller", s)
    else
      (Except.ok (), { claims := fun k => if k = claim then none else s.claims k })

/-! ## System pallet (`src/system.rs`) -/

/-- The System Pallet (`system::Pallet`): the current block number and a map
from accounts to their nonces. -/
structure SystemPallet where
  block_number : Nat
  nonce : String → Option Nat

/-- Create a new instance of the system pallet (`Pallet::new`): block number
zero, empty nonce map. -/
def SystemPallet.new : SystemPallet :=
  { block_number := 0, nonce := fun _ => none }

/-- Increment the block number (`Pallet::inc_block_number`).  The source uses
the unchecked `+=` of `u32`, modelled here as wrapping addition; the overflow
case is captured by `SystemPallet.inc_block_number_overflows`. -/
def SystemPallet.inc_block_number (s : SystemPallet) : SystemPallet :=
  { s with block_number := (s.block_number + 1) % 2 ^ 32 }

/-- Holds exactly when the unchecked `u32` addition performed by
`inc_block_number` overflows (which panics a Rust debug build). -/
def SystemPallet.inc_block_number_overflows (s : SystemPallet) : Bool :=
  decide (2 ^ 32 ≤ s.block_number + 1)

/-- Increment the nonce of an account (`Pallet::inc_nonce`): an existing
nonce `n` is replaced by `n + one` via the unchecked `+` of `u32` (modelled
as wrapping addition, overflow captured by
`SystemPallet.inc_nonce_overflows`); an absent nonce is set to one. -/
def SystemPallet.inc_nonce (s : SystemPallet) (who : String) : SystemPallet :=
  match s.nonce who with
  | some current_nonce =>
    { s with nonce := fun k => if k = who then some ((current_nonce + 1) % 2 ^ 32) else s.nonce k }
  | none =>
    { s with nonce := fun k => if k = who then some 1 else s.nonce k }

/-- Holds exactly when the unchecked `u32` addition performed by `inc_nonce`
for account `who` overflows (which panics a Rust debug build); the
absent-nonce branch performs no addition. -/
def SystemPallet.inc_nonce_overflows (s : SystemPallet) (who : String) : Bool :=
  match s.nonce who with
  | some current_nonce => decide (2 ^ 32 ≤ current_nonce + 1)
  | none => false

/-! ## Runtime (`src/main.rs`) and block structure

`src/support.rs` and the `macros` crate are not among the sources: the
`Block`, `Header` and `Extrinsic` records, the `RuntimeCall` aggregation,
the runtime-level `dispatch` and `execute_block` are declared or generated
there and only their callers appear in `src/main.rs`.  Those parts are
modelled from the spec (sections 3, 4.2 and 4.4). -/

/-- The calls of the balances pallet exposed to the dispatcher.  Modelled
from the spec: the enum is generated by the `macros::call` attribute on the
`impl` block containing `transfer`; per spec section 4.2 each variant owns
the parameters of one operation, the caller being supplied separately. -/
inductive BalancesCall where
  | transfer («to» : String) (amount : Nat)

/-- The calls of the proof-of-existence pallet (`proof_of_existence::Call`). -/
inductive ProofOfExistenceCall where
  | CreateClaim (claim : String)
  | RevokeClaim (claim : String)

/-- The aggregated runtime call.  Modelled from the spec: `RuntimeCall` is
generated by the `macros::runtime` attribute; per spec section 4.2 it is a
closed tagged union with one variant per module, each wrapping that module's
own call type unchanged. -/
inductive RuntimeCall where
  | balances (call : BalancesCall)
  | proof_of_existence (call : ProofOfExistenceCall)

/-- A block header (`support::Header`).  Modelled from the spec: the record
`{block_number}` of spec section 3, declared in the missing `support.rs`. -/
structure Header where
  block_number : Nat

/-- An extrinsic (`support::Extrinsic`).  Modelled from the spec: the
immutable record `{caller, call}` of spec section 3. -/
structure Extrinsic where
  caller : String
  call : RuntimeCall

/-- A block (`support::Block`).  Modelled from the spec: the immutable
record `{header, extrinsics}` of spec section 3. -/
structure Block where
  header : Header
  extrinsics : List Extrinsic

/-- Dispatch a balances call.  Modelled from the spec: generated by
`macros::call`; per spec section 4.2 a single-level forward of the unwrapped
variant to the module operation with the same caller. -/
def BalancesPallet.dispatch (s : BalancesPallet) (caller : String) (call : BalancesCall) :
    Except String Unit × BalancesPallet :=
  match call with
  | BalancesCall.transfer «to» amount => s.transfer caller «to» amount

/-- Dispatch a proof-of-existence call (`impl Dispatch for Pallet` in
`src/proof_of_existence.rs`). -/
def ProofOfExistencePallet.dispatch (s : ProofOfExistencePallet) (caller : String)
    (call : ProofOfExistenceCall) : Except String Unit × ProofOfExistencePallet :=
  match call with
  | ProofOfExistenceCall.CreateClaim claim => s.create_claim caller claim
  | ProofOfExistenceCall.RevokeClaim claim => s.revoke_claim caller claim

/-- The main Runtime (`Runtime` in `src/main.rs`): one instance of the
system, balances and proof-of-existence pallets. -/
structure Runtime where
  system : SystemPallet
  balances : BalancesPallet
  proof_of_existence : ProofOfExistencePallet

/-- Construct a fresh runtime.  Modelled from the spec: `Runtime::new` is
generated by `macros::runtime`; per spec section 4.3 it builds one fresh
instance of every module with empty stores. -/
def Runtime.new : Runtime :=
  { system := SystemPallet.new
    balances := BalancesPallet.new
    proof_of_existence := ProofOfExistencePallet.new }

/-- Dispatch an aggregated call.  Modelled from the spec: generated by
`macros::runtime`; per spec section 4.2 the matched variant is unwrapped and
forwarded to the owning module's dispatch with the same caller, errors
propagated verbatim. -/
def Runtime.dispatch (rt : Runtime) (caller : String) (call : RuntimeCall) :
    Except String Unit × Runtime :=
  match call with
  | RuntimeCall.balances c =>
    let r := rt.balances.dispatch caller c
    (r.1, { rt with balances := r.2 })
  | RuntimeCall.proof_of_existence c =>
    let r := rt.proof_of_existence.dispatch caller c
    (r.1, { rt with proof_of_existence := r.2 })

/-- Apply one extrinsic.  Modelled from the spec: step 3 of the
block-execution loop of spec section 4.4 — increment the caller's nonce
before the dispatch attempt, then dispatch; a dispatch error is reported but
does not abort the block, so only the post-state of the dispatch is kept. -/
def Runtime.apply_extrinsic (rt : Runtime) (e : Extrinsic) : Runtime :=
  let rt' := { rt with system := rt.system.inc_nonce e.caller }
  (rt'.dispatch e.caller e.call).2

/-- Execute a block.  Modelled from the spec: `execute_block` is generated
by `macros::runtime`; per spec section 4.4 the header's block number is
compared with the current block number plus one (mismatch fails the whole
block with no state change), then the block number is advanced once and
every extrinsic is applied in order with per-extrinsic error containment,
and success is returned. -/
def Runtime.execute_block (rt : Runtime) (b : Block) : Except String Unit × Runtime :=
  if b.header.block_number ≠ rt.system.block_number + 1 then
    (Except.error "invalid block number", rt)
  else
    (Except.ok (),
      b.extrinsics.foldl Runtime.apply_extrinsic
        { rt with system := rt.system.inc_block_number })

/-! ## Characterisations of `transfer`

The three branches of `BalancesPallet.transfer`, each as an equation guarded
by the branch condition. -/

/-- In the insufficient-funds branch the transfer returns the error
"Not enough funds" and the unchanged state. -/
theorem transfer_eq_err_funds (s : BalancesPallet) (caller «to» : String)
    (amount : Nat) (h : s.balance caller < amount) :
    s.transfer caller «to» amount = (Except.error "Not enough funds", s) := by
  unfold BalancesPallet.transfer u128_checked_sub
  simp only [if_neg (Nat.not_le.2 h)]

/-- In the overflow branch the transfer returns the error "Overflow" and the
unchanged state. -/
theorem transfer_eq_err_overflow (s : BalancesPallet) (caller «to» : String)
    (amount : Nat) (h1 : amount ≤ s.balance caller)
    (h2 : 2 ^ 128 ≤ s.balance «to» + amount) :
    s.transfer caller «to» amount = (Except.error "Overflow", s) := by
  unfold BalancesPallet.transfer u128_checked_sub u128_checked_add
  simp only [if_pos h1, if_neg (Nat.not_lt.2 h2)]

/-- In the success branch the transfer returns Ok and writes the caller's
debited balance first, then the recipient's credited balance. -/
theorem transfer_eq_ok (s : BalancesPallet) (caller «to» : String) (amount : Nat)
    (h1 : amount ≤ s.balance caller) (h2 : s.balance «to» + amount < 2 ^ 128) :
    s.transfer caller «to» amount
      = (Except.ok (),
         (s.set_balance caller (s.balance caller - amount)).set_balance «to»
           (s.balance «to» + amount)) := by
  unfold BalancesPallet.transfer u128_checked_sub u128_checked_add
  simp only [if_pos h1, if_pos h2]

/-- Reading back the account just written by `set_balance`. -/
theorem balance_set_balance_self (s : BalancesPallet) (who : String) (amount : Nat) :
    (s.set_balance who amount).balance who = amount := by
  simp [BalancesPallet.set_balance, BalancesPallet.balance]

/-- Reading any other account after `set_balance`. -/
theorem balance_set_balance_ne (s : BalancesPallet) (who k : String) (amount : Nat)
    (h : k ≠ who) : (s.set_balance who amount).balance k = s.balance k := by
  simp [BalancesPallet.set_balance, BalancesPallet.balance, h]

/-- A transfer that returns Ok took the success branch. -/
theorem transfer_ok_inv (s : BalancesPallet) (caller «to» : String) (amount : Nat)
    (h : (s.transfer caller «to» amount).1 = Except.ok ()) :
    amount ≤ s.balance caller ∧ s.balance «to» + amount < 2 ^ 128 := by
  by_cases h1 : amount ≤ s.balance caller
  · by_cases h2 : s.balance «to» + amount < 2 ^ 128
    · exact ⟨h1, h2⟩
    · rw [transfer_eq_err_overflow s caller «to» amount h1 (Nat.not_lt.1 h2)] at h
      exact absurd h (by simp)
  · rw [transfer_eq_err_funds s caller «to» amount (Nat.not_le.1 h1)] at h
    exact absurd h (by simp)

/-! ## Claims about the balances pallet -/

/-- Claim C4: for every balances state, caller, recipient and amount with
`amount > balance(caller)`, `transfer` returns the error "Not enough funds"
and the balances store is unchanged (so every account's balance, including
the caller's and the recipient's, is identical before and after). -/
theorem transfer_insufficient_funds (s : BalancesPallet) (caller «to» : String)
    (amount : Nat) (h : s.balance caller < amount) :
    s.transfer caller «to» amount = (Except.error "Not enough funds", s) :=
  transfer_eq_err_funds s caller «to» amount h

/-- Witness for C4 at a concrete input. -/
theorem transfer_insufficient_funds_witness :
    (BalancesPallet.new.transfer "alice" "bob" 100
      = (Except.error "Not enough funds", BalancesPallet.new)) :=
  transfer_insufficient_funds BalancesPallet.new "alice" "bob" 100 (by decide)

/-- Claim C5: for every balances state, caller, recipient and amount with
`amount ≤ balance(caller)` but `balance(to) + amount` exceeding the maximum
`u128` value, `transfer` returns the error "Overflow" and the balances store
is unchanged — in particular the caller's debited balance is never written
even though the subtraction alone succeeded. -/
theorem transfer_overflow (s : BalancesPallet) (caller «to» : String) (amount : Nat)
    (h1 : amount ≤ s.balance caller) (h2 : 2 ^ 128 ≤ s.balance «to» + amount) :
    s.transfer caller «to» amount = (Except.error "Overflow", s) :=
  transfer_eq_err_overflow s caller «to» amount h1 h2

/-- Witness for C5 at a concrete input. -/
theorem transfer_overflow_witness :
    ((BalancesPallet.new.set_balance "alice" (2 ^ 128 - 1)).set_balance "bob" (2 ^ 128 - 1)).transfer
        "alice" "bob" 5
      = (Except.error "Overflow",
         (BalancesPallet.new.set_balance "alice" (2 ^ 128 - 1)).set_balance "bob" (2 ^ 128 - 1)) :=
  transfer_overflow _ "alice" "bob" 5 (by decide) (by decide)

/-- Counterexample to claim C3 as stated: the claim quantifies over every
pair of accounts, including `from = to`.  A successful self-transfer of 30
by an account holding 100 leaves the account with 130 (see C10), so the sum
`balance(from) + balance(to)` grows from 200 to 260. -/
theorem transfer_self_sum_not_preserved :
    ((BalancesPallet.new.set_balance "alice" 100).transfer "alice" "alice" 30).1
        = Except.ok ()
      ∧ (BalancesPallet.new.set_balance "alice" 100).balance "alice"
          + (BalancesPallet.new.set_balance "alice" 100).balance "alice" = 200
      ∧ ((BalancesPallet.new.set_balance "alice" 100).transfer "alice" "alice" 30).2.balance "alice"
          + ((BalancesPallet.new.set_balance "alice" 100).transfer "alice" "alice" 30).2.balance "alice"
          = 260 := by
  refine ⟨rfl, rfl, rfl⟩

/-- Claim C3 (amended: the two accounts must be distinct): for every
balances state, distinct accounts `caller` and `to`, and amount, if
`transfer caller to amount` returns Ok then the sum of the two balances
after the transfer equals the sum before it. -/
theorem transfer_preserves_sum (s : BalancesPallet) (caller «to» : String) (amount : Nat)
    (hne : caller ≠ «to») (h : (s.transfer caller «to» amount).1 = Except.ok ()) :
    (s.transfer caller «to» amount).2.balance caller
        + (s.transfer caller «to» amount).2.balance «to»
      = s.balance caller + s.balance «to» := by
  obtain ⟨h1, h2⟩ := transfer_ok_inv s caller «to» amount h
  rw [transfer_eq_ok s caller «to» amount h1 h2]
  rw [balance_set_balance_self, balance_set_balance_ne _ _ _ _ hne,
    balance_set_balance_self]
  omega

/-- Witness for the amended C3 at a concrete input. -/
theorem transfer_preserves_sum_witness :
    ((BalancesPallet.new.set_balance "alice" 100).transfer "alice" "bob" 30).2.balance "alice"
        + ((BalancesPallet.new.set_balance "alice" 100).transfer "alice" "bob" 30).2.balance "bob"
      = (BalancesPallet.new.set_balance "alice" 100).balance "alice"
          + (BalancesPallet.new.set_balance "alice" 100).balance "bob" :=
  transfer_preserves_sum _ "alice" "bob" 30 (by decide) rfl

/-- Claim C10: for every balances state, account `a` and amount with
`amount ≤ balance(a)` and `balance(a) + amount` within the `u128` range, the
self-transfer `transfer a a amount` returns Ok and afterwards `balance(a)`
equals the old `balance(a) + amount`, because the credited balance is
written after the debited one. -/
theorem transfer_self_credits (s : BalancesPallet) (a : String) (amount : Nat)
    (h1 : amount ≤ s.balance a) (h2 : s.balance a + amount < 2 ^ 128) :
    (s.transfer a a amount).1 = Except.ok ()
      ∧ (s.transfer a a amount).2.balance a = s.balance a + amount := by
  rw [transfer_eq_ok s a a amount h1 h2]
  exact ⟨rfl, balance_set_balance_self _ a _⟩

/-- Witness for C10 at a concrete input. -/
theorem transfer_self_credits_witness :
    ((BalancesPallet.new.set_balance "alice" 100).transfer "alice" "alice" 30).1 = Except.ok ()
      ∧ ((BalancesPallet.new.set_balance "alice" 100).transfer "alice" "alice" 30).2.balance "alice"
        = (BalancesPallet.new.set_balance "alice" 100).balance "alice" + 30 :=
  transfer_self_credits _ "alice" 30 (by decide) (by decide)

/-! ## Claims about the proof-of-existence pallet -/

/-- Claim C6: for every proof-of-existence state and claim value `c`, if `c`
is unclaimed then `create_claim caller c` returns Ok and afterwards
`get_claim c` returns the caller; if `c` already has an owner then
`create_claim caller2 c` returns the already-claimed error for every
`caller2` (including the current owner) and `get_claim c` still returns the
original owner. -/
theorem create_claim_spec (s : ProofOfExistencePallet) (c : String) :
    (s.get_claim c = none → ∀ caller,
        (s.create_claim caller c).1 = Except.ok ()
        ∧ (s.create_claim caller c).2.get_claim c = some caller)
    ∧ (∀ owner, s.get_claim c = some owner → ∀ caller2,
        (s.create_claim caller2 c).1 = Except.error "this content is already claimed"
        ∧ (s.create_claim caller2 c).2.get_claim c = some owner) := by
  constructor
  · intro hnone caller
    unfold ProofOfExistencePallet.get_claim at hnone
    unfold ProofOfExistencePallet.create_claim ProofOfExistencePallet.get_claim
    rw [hnone]
    simp
  · intro owner hown caller2
    unfold ProofOfExistencePallet.get_claim at hown
    unfold ProofOfExistencePallet.create_claim ProofOfExistencePallet.get_claim
    rw [hown]
    simp [hown]

/-- Witness for C6 at a concrete input: both the unclaimed and the
already-claimed branch, on a fresh pallet. -/
theorem create_claim_spec_witness :
    ((ProofOfExistencePallet.new.create_claim "alice" "x").1 = Except.ok ()
      ∧ (ProofOfExistencePallet.new.create_claim "alice" "x").2.get_claim "x" = some "alice")
    ∧ (((ProofOfExistencePallet.new.create_claim "alice" "x").2.create_claim "bob" "x").1
          = Except.error "this content is already claimed"
        ∧ ((ProofOfExistencePallet.new.create_claim "alice" "x").2.create_claim "bob" "x").2.get_claim "x"
          = some "alice") :=
  ⟨(create_claim_spec ProofOfExistencePallet.new "x").1 rfl "alice",
   (create_claim_spec (ProofOfExistencePallet.new.create_claim "alice" "x").2 "x").2
     "alice" rfl "bob"⟩

/-- Claim C7: for every proof-of-existence state, caller and claim value
`c`, `revoke_claim caller c` returns the not-existing error if `c` is
unclaimed, the not-owner error (leaving the claim in place) if `c` is owned
by someone other than the caller, and otherwise Ok with `get_claim c`
returning none afterwards. -/
theorem revoke_claim_spec (s : ProofOfExistencePallet) (caller c : String) :
    (s.get_claim c = none →
        s.revoke_claim caller c = (Except.error "Claim not existing", s))
    ∧ (∀ owner, s.get_claim c = some owner → owner ≠ caller →
        s.revoke_claim caller c
          = (Except.error "Cannot revoke claim that is not owned by caller", s))
    ∧ (s.get_claim c = some caller →
        (s.revoke_claim caller c).1 = Except.ok ()
        ∧ (s.revoke_claim caller c).2.get_claim c = none) := by
  refine ⟨?_, ?_, ?_⟩
  · intro h
    unfold ProofOfExistencePallet.revoke_claim
    rw [h]
  · intro owner h hne
    unfold ProofOfExistencePallet.revoke_claim
    rw [h]
    simp [hne]
  · intro h
    unfold ProofOfExistencePallet.revoke_claim
    rw [h]
    simp [ProofOfExistencePallet.get_claim]

/-- Witness for C7 at a concrete input: all three branches, on a pallet
where "x" is owned by "alice". -/
theorem revoke_claim_spec_witness :
    ((ProofOfExistencePallet.mk fun k => if k = "x" then some "alice" else none).revoke_claim
        "alice" "y" = (Except.error "Claim not existing",
          ProofOfExistencePallet.mk fun k => if k = "x" then some "alice" else none))
    ∧ ((ProofOfExistencePallet.mk fun k => if k = "x" then some "alice" else none).revoke_claim
        "bob" "x" = (Except.error "Cannot revoke claim that is not owned by caller",
          ProofOfExistencePallet.mk fun k => if k = "x" then some "alice" else none))
    ∧ (((ProofOfExistencePallet.mk fun k => if k = "x" then some "alice" else none).revoke_claim
          "alice" "x").1 = Except.ok ()
        ∧ ((ProofOfExistencePallet.mk fun k => if k = "x" then some "alice" else none).revoke_claim
          "alice" "x").2.get_claim "x" = none) :=
  ⟨(revoke_claim_spec _ "alice" "y").1 (by simp [ProofOfExistencePallet.get_claim]),
   (revoke_claim_spec _ "bob" "x").2.1 "alice" (by simp [ProofOfExistencePallet.get_claim])
     (by decide),
   (revoke_claim_spec _ "alice" "x").2.2 (by simp [ProofOfExistencePallet.get_claim])⟩

/-! ## Claims about the system pallet -/

/-- Counterexample to claim C8 as stated: `inc_nonce` and
`inc_block_number` use the unchecked `+` and `+=` of `u32`, not checked
arithmetic.  In the state where the stored nonce of "alice" (respectively
the block number) is `u32::MAX = 2 ^ 32 - 1`, the addition they perform
overflows the `u32` range — a Rust debug build panics there, so the
checked-arithmetic discipline the claim asserts does not hold at the type's
maximum. -/
theorem inc_overflows_at_max :
    (SystemPallet.mk 0
        (fun k => if k = "alice" then some (2 ^ 32 - 1) else none)).inc_nonce_overflows
        "alice" = true
    ∧ (SystemPallet.mk (2 ^ 32 - 1) (fun _ => none)).inc_block_number_overflows = true := by
  exact ⟨by decide, by decide⟩

/-- Claim C8 (amended: the balances pallet's arithmetic is checked, but the
system pallet's is not): `inc_nonce` and `inc_block_number` perform
unchecked `u32` additions, which do not overflow — and hence cannot abort —
exactly as long as the stored nonce of the account (respectively the block
number) is below `u32::MAX`; at the maximum the addition overflows. -/
theorem inc_no_overflow_below_max (s : SystemPallet) (who : String)
    (hn : ∀ n, s.nonce who = some n → n < 2 ^ 32 - 1)
    (hb : s.block_number < 2 ^ 32 - 1) :
    s.inc_nonce_overflows who = false ∧ s.inc_block_number_overflows = false := by
  constructor
  · unfold SystemPallet.inc_nonce_overflows
    cases hcase : s.nonce who with
    | none => rfl
    | some n => exact decide_eq_false (by have := hn n hcase; omega)
  · unfold SystemPallet.inc_block_number_overflows
    exact decide_eq_false (by omega)

/-- Witness for the amended C8 at a concrete input. -/
theorem inc_no_overflow_below_max_witness :
    (SystemPallet.mk 7 (fun k => if k = "alice" then some 5 else none)).inc_nonce_overflows
        "alice" = false
    ∧ (SystemPallet.mk 7
        (fun k => if k = "alice" then some 5 else none)).inc_block_number_overflows = false :=
  inc_no_overflow_below_max _ "alice"
    (by intro n h; simp at h; omega) (by decide)

/-! ## Claims about block execution (spec-modelled, see above) -/

/-- Claim C1: for every runtime state and block `b`, if
`b.header.block_number` is not the current block number plus one then
`execute_block` returns an error and leaves the runtime unchanged — in
particular no extrinsic of `b` is dispatched, the system pallet's block
number is unchanged, and every account's nonce is unchanged. -/
theorem execute_block_bad_number (rt : Runtime) (b : Block)
    (h : b.header.block_number ≠ rt.system.block_number + 1) :
    (rt.execute_block b).1 = Except.error "invalid block number"
    ∧ (rt.execute_block b).2 = rt
    ∧ (rt.execute_block b).2.system.block_number = rt.system.block_number
    ∧ ∀ a, (rt.execute_block b).2.system.nonce a = rt.system.nonce a := by
  unfold Runtime.execute_block
  rw [if_pos h]
  exact ⟨rfl, rfl, rfl, fun _ => rfl⟩

/-- Witness for C1 at a concrete input: a fresh runtime rejects a block
numbered 5. -/
theorem execute_block_bad_number_witness :
    (Runtime.new.execute_block { header := { block_number := 5 }, extrinsics := [] }).1
        = Except.error "invalid block number"
    ∧ (Runtime.new.execute_block { header := { block_number := 5 }, extrinsics := [] }).2
        = Runtime.new
    ∧ (Runtime.new.execute_block { header := { block_number := 5 }, extrinsics := [] }).2.system.block_number
        = Runtime.new.system.block_number
    ∧ ∀ a, (Runtime.new.execute_block { header := { block_number := 5 }, extrinsics := [] }).2.system.nonce a
        = Runtime.new.system.nonce a :=
  execute_block_bad_number Runtime.new _ (by decide)

/-- Claim C2: `execute_block` returns Ok exactly when the header's block
number is the current block number plus one; in that case every extrinsic is
attempted in order (each application increments the caller's nonce and then
dispatches, a dispatch error being contained in `apply_extrinsic` rather
than propagated), so no dispatch error ever appears in `execute_block`'s
return value. -/
theorem execute_block_ok_iff (rt : Runtime) (b : Block) :
    ((rt.execute_block b).1 = Except.ok ()
      ↔ b.header.block_number = rt.system.block_number + 1)
    ∧ (b.header.block_number = rt.system.block_number + 1 →
        (rt.execute_block b).2
          = b.extrinsics.foldl Runtime.apply_extrinsic
              { rt with system := rt.system.inc_block_number }) := by
  unfold Runtime.execute_block
  by_cases h : b.header.block_number = rt.system.block_number + 1
  · rw [if_neg (not_not_intro h)]
    exact ⟨by simp [h], fun _ => rfl⟩
  · rw [if_pos h]
    exact ⟨by simp [h], fun hh => absurd hh h⟩

/-- A block whose single extrinsic fails (a transfer with no funds), used to
witness C2's error containment. -/
def failing_block : Block :=
  { header := { block_number := 1 }
    extrinsics :=
      [{ caller := "alice", call := RuntimeCall.balances (BalancesCall.transfer "bob" 1000) }] }

/-- Witness for C2 at a concrete input: a fresh runtime accepts block 1 even
though its only extrinsic fails with a dispatch error. -/
theorem execute_block_ok_iff_witness :
    (Runtime.new.execute_block failing_block).1 = Except.ok () :=
  (execute_block_ok_iff Runtime.new failing_block).1.mpr (by decide)

/-- The runtime state at the start of the scenario of `main` in
`src/main.rs`: a fresh runtime whose balances store gives "alice" 100. -/
def scenario_runtime : Runtime :=
  { Runtime.new with balances := Runtime.new.balances.set_balance "alice" 100 }

/-- Block 1 of `main` in `src/main.rs`: a transfer of 30 from "alice" to
"bob" followed by a creation of the claim "blablub" by "alice". -/
def block_1 : Block :=
  { header := { block_number := 1 }
    extrinsics :=
      [ { caller := "alice", call := RuntimeCall.balances (BalancesCall.transfer "bob" 30) }
      , { caller := "alice"
          call := RuntimeCall.proof_of_existence (ProofOfExistenceCall.CreateClaim "blablub") } ] }

/-- Claim C9: starting from a fresh runtime with balance(alice) = 100 and
balance(bob) = 0, executing block 1 (a transfer of 30 from alice to bob,
then a creation of the claim "blablub" by alice) succeeds and yields
balance(alice) = 70, balance(bob) = 30, get_claim "blablub" = alice, block
number 1 and nonce(alice) = 2. -/
theorem scenario_block_1 :
    (scenario_runtime.execute_block block_1).1 = Except.ok ()
    ∧ (scenario_runtime.execute_block block_1).2.balances.balance "alice" = 70
    ∧ (scenario_runtime.execute_block block_1).2.balances.balance "bob" = 30
    ∧ (scenario_runtime.execute_block block_1).2.proof_of_existence.get_claim "blablub"
        = some "alice"
    ∧ (scenario_runtime.execute_block block_1).2.system.block_number = 1
    ∧ (scenario_runtime.execute_block block_1).2.system.nonce "alice" = some 2 := by
  exact ⟨rfl, rfl, rfl, rfl, rfl, rfl⟩
